import Mathlib

/-!
Shallow embedding of src/security/csrf.py (CSRFMiddleware) and proofs of
the specified properties of its dispatch decision procedure.
-/

set_option maxRecDepth 16384

namespace Csrf

/-- The session mapping owned by the external session store.  The middleware
only reads and writes the key `csrf_token`, so the session is modelled by
that single binding: `none` when the key is absent from the mapping,
`some v` when the key is present with value `v` (possibly the empty
string — key membership and truthiness are distinct in the source). -/
structure SessionMap where
  csrf_token : Option String
deriving DecidableEq, Repr

/-- The parts of the inbound HTTP request that dispatch consults.
`contentType` is `headers.get("content-type", "")` (default empty string);
`headerToken` is `headers.get("X-CSRF-Token")` (`none` when absent);
`formParseOk` records whether `await request.form()` succeeds, and
`formToken` is `form_data.get("csrf_token")` of the successfully parsed
body (`none` when the field is absent). -/
structure Request where
  method : String
  path : String
  contentType : String
  headerToken : Option String
  formParseOk : Bool
  formToken : Option String
deriving DecidableEq, Repr

/-- The exception raised by dispatch: `HTTPException(status_code, detail)`. -/
structure HTTPError where
  status_code : Nat
  detail : String
deriving DecidableEq, Repr

/-- Observable outcome of one dispatch call: the session left behind in the
scope, the value stored in `request.state.csrf_token`, how many times the
downstream handler `call_next` was invoked, and either the downstream
response (returned unchanged) or the raised exception. -/
structure DispatchOut (ρ : Type) where
  sessionAfter : Option SessionMap
  stateToken : String
  nextCalls : Nat
  result : Except HTTPError ρ

/-- Python truthiness of an optional string: `None` and `""` are falsy. -/
def pyTruthy : Option String → Bool
  | none => false
  | some s => s ≠ ""

/-- Python `a or b` on optional strings: yields `b` whenever `a` is falsy
(absent or the empty string). -/
def pyOr (a b : Option String) : Option String :=
  if pyTruthy a then a else b

/-- The middleware object; `secret_key` is stored at construction. -/
structure CSRFMiddleware where
  secret_key : String
deriving DecidableEq, Repr

/-- Constructor semantics of `__init__`: `self.secret_key = secret_key or
secrets.token_hex(32)`, where `randHex` stands for the generated random
hex string (Python `or` also discards an empty supplied key). -/
def CSRFMiddleware.init (secretKey : Option String) (randHex : String) : CSRFMiddleware :=
  ⟨if pyTruthy secretKey then secretKey.getD randHex else randHex⟩

/-- Boolean prefix test on strings, spelt out on the character lists so
that it evaluates by kernel reduction; it mirrors Python str.startswith
(equivalently String.startsWith). -/
def strStartsWith (s p : String) : Bool :=
  p.data.isPrefixOf s.data

/-- Lines 77-78: `skip_paths = ["/upload-image", "/upload-video"]; return
any(path.startswith(skip) for skip in skip_paths)`. -/
def should_skip_csrf (path : String) : Bool :=
  (["/upload-image", "/upload-video"] : List String).any (fun skip => strStartsWith path skip)

/-- Line 36: the methods subject to validation. -/
def stateMutatingMethods : List String :=
  ["POST", "PUT", "DELETE", "PATCH"]

/-- Lines 26-27: if a session is in scope and has no `csrf_token` key, a
fresh token (`secrets.token_urlsafe(32)`, modelled by the parameter
`freshToken`) is stored under that key; otherwise the session is left
untouched. -/
def sessionAfterGen (session : Option SessionMap) (freshToken : String) : Option SessionMap :=
  match session with
  | none => none
  | some sess =>
    match sess.csrf_token with
    | none => some ⟨some freshToken⟩
    | some _ => some sess

/-- Lines 30-33: `request.state.csrf_token` is
`request.session.get("csrf_token", "")` when a session is in scope and
`""` otherwise. -/
def stateTokenOf (session : Option SessionMap) : String :=
  match session with
  | none => ""
  | some sess => sess.csrf_token.getD ""

/-- Lines 48-55: the form token is looked for only when the content type
starts with `application/x-www-form-urlencoded` or `multipart/form-data`;
a body-parse failure is swallowed (`except: pass`), leaving it `None`. -/
def formTokenOf (req : Request) : Option String :=
  if strStartsWith req.contentType "application/x-www-form-urlencoded"
      || strStartsWith req.contentType "multipart/form-data" then
    if req.formParseOk then req.formToken else none
  else none

/-- Line 60: `submitted_token = form_token or header_token`. -/
def submittedTokenOf (req : Request) : Option String :=
  pyOr (formTokenOf req) req.headerToken

/-- Line 64, negated: the request passes validation when the submitted
token is truthy, the session token is truthy, and the two are equal. -/
def tokenValid (submitted stored : Option String) : Bool :=
  pyTruthy submitted && pyTruthy stored && decide (submitted = stored)

/-- Shallow embedding of `CSRFMiddleware.dispatch` (lines 20-69).  The
session is the `request.scope` session capability (`none` when no session
middleware is active); `freshToken` stands for the random token that
`secrets.token_urlsafe(32)` would produce on this call; `next` is the
downstream response.  The middleware object itself is never consulted by
the source body, hence the unused `self`. -/
def CSRFMiddleware.dispatch {ρ : Type} (_self : CSRFMiddleware) (session : Option SessionMap)
    (req : Request) (freshToken : String) (next : ρ) : DispatchOut ρ :=
  let has_session := session.isSome
  let session1 := sessionAfterGen session freshToken
  let stateToken := stateTokenOf session1
  if req.method ∈ stateMutatingMethods then
    if should_skip_csrf req.path then
      ⟨session1, stateToken, 1, Except.ok next⟩
    else if !has_session then
      ⟨session1, stateToken, 1, Except.ok next⟩
    else
      let submitted_token := submittedTokenOf req
      let session_token := session1.bind SessionMap.csrf_token
      if tokenValid submitted_token session_token then
        ⟨session1, stateToken, 1, Except.ok next⟩
      else
        ⟨session1, stateToken, 0, Except.error ⟨403, "CSRF token validation failed"⟩⟩
  else
    ⟨session1, stateToken, 1, Except.ok next⟩

/-- Sequential processing of a trace of requests against one session: each
step threads the session the previous dispatch left behind.  Each trace
element carries the request together with the random token that would be
generated on that step. -/
def runTrace (mw : CSRFMiddleware) (session : Option SessionMap)
    (trace : List (Request × String)) : Option SessionMap :=
  trace.foldl (fun acc p => (mw.dispatch acc p.1 p.2 ()).sessionAfter) session

/-! Helper lemmas shared by the claim theorems. -/

lemma tokenValid_iff (s st : Option String) :
    tokenValid s st = true ↔ ∃ t : String, t ≠ "" ∧ s = some t ∧ st = some t := by
  cases s <;> cases st <;> simp [tokenValid, pyTruthy]
  aesop

lemma dispatch_sessionAfter {ρ : Type} (mw : CSRFMiddleware) (session : Option SessionMap)
    (req : Request) (fresh : String) (next : ρ) :
    (mw.dispatch session req fresh next).sessionAfter = sessionAfterGen session fresh := by
  simp only [CSRFMiddleware.dispatch]
  repeat' split
  all_goals rfl

lemma dispatch_stateToken {ρ : Type} (mw : CSRFMiddleware) (session : Option SessionMap)
    (req : Request) (fresh : String) (next : ρ) :
    (mw.dispatch session req fresh next).stateToken = stateTokenOf (sessionAfterGen session fresh) := by
  simp only [CSRFMiddleware.dispatch]
  repeat' split
  all_goals rfl

lemma dispatch_no_session {ρ : Type} (mw : CSRFMiddleware) (req : Request)
    (fresh : String) (next : ρ) :
    mw.dispatch none req fresh next
      = ⟨none, "", 1, Except.ok next⟩ := by
  simp only [CSRFMiddleware.dispatch, sessionAfterGen, stateTokenOf, Option.isSome]
  repeat' split
  all_goals first | rfl | simp_all

lemma dispatch_skip_path {ρ : Type} (mw : CSRFMiddleware) (session : Option SessionMap)
    (req : Request) (fresh : String) (next : ρ)
    (hx : should_skip_csrf req.path = true) :
    mw.dispatch session req fresh next
      = ⟨sessionAfterGen session fresh, stateTokenOf (sessionAfterGen session fresh), 1,
          Except.ok next⟩ := by
  simp only [CSRFMiddleware.dispatch, hx]
  repeat' split
  all_goals first | rfl | simp_all

lemma dispatch_validating {ρ : Type} (mw : CSRFMiddleware) (sess : SessionMap)
    (req : Request) (fresh : String) (next : ρ)
    (hm : req.method ∈ stateMutatingMethods)
    (hx : should_skip_csrf req.path = false) :
    mw.dispatch (some sess) req fresh next
      = (if tokenValid (submittedTokenOf req)
              ((sessionAfterGen (some sess) fresh).bind SessionMap.csrf_token) then
          ⟨sessionAfterGen (some sess) fresh,
            stateTokenOf (sessionAfterGen (some sess) fresh), 1, Except.ok next⟩
        else
          ⟨sessionAfterGen (some sess) fresh,
            stateTokenOf (sessionAfterGen (some sess) fresh), 0,
            Except.error ⟨403, "CSRF token validation failed"⟩⟩) := by
  simp only [CSRFMiddleware.dispatch, hm, hx, if_true, Bool.false_eq_true, if_false,
    Option.isSome, Bool.not_true, Bool.false_eq_true]

lemma dispatch_nonmutating {ρ : Type} (mw : CSRFMiddleware) (session : Option SessionMap)
    (req : Request) (fresh : String) (next : ρ)
    (hm : req.method ∉ stateMutatingMethods) :
    mw.dispatch session req fresh next
      = ⟨sessionAfterGen session fresh, stateTokenOf (sessionAfterGen session fresh), 1,
          Except.ok next⟩ := by
  simp only [CSRFMiddleware.dispatch, hm]
  repeat' split
  all_goals first | rfl | simp_all

lemma dispatch_preserves_existing_token {ρ : Type} (mw : CSRFMiddleware) (sess : SessionMap)
    (t : String) (h : sess.csrf_token = some t) (req : Request) (fresh : String) (next : ρ) :
    (mw.dispatch (some sess) req fresh next).sessionAfter = some sess := by
  rw [dispatch_sessionAfter]
  simp [sessionAfterGen, h]

lemma runTrace_preserves_token (mw : CSRFMiddleware) (sess : SessionMap) (t : String)
    (h : sess.csrf_token = some t) (trace : List (Request × String)) :
    runTrace mw (some sess) trace = some sess := by
  induction trace with
  | nil => rfl
  | cons p rest ih =>
    simp only [runTrace, List.foldl_cons]
    rw [dispatch_preserves_existing_token mw sess t h p.1 p.2 ()]
    exact ih

lemma dispatch_depends_only_on (mw : CSRFMiddleware) {ρ : Type} (session : Option SessionMap)
    (fresh : String) (next : ρ) (req1 req2 : Request)
    (h1 : req1.method = req2.method) (h2 : req1.path = req2.path)
    (h3 : submittedTokenOf req1 = submittedTokenOf req2) :
    mw.dispatch session req1 fresh next = mw.dispatch session req2 fresh next := by
  unfold CSRFMiddleware.dispatch
  rw [h1, h2, h3]

/-! Concrete fixtures used by the witness theorems. -/

def mwEx : CSRFMiddleware := CSRFMiddleware.init none "RND"

def exFormReq : Request :=
  ⟨"POST", "/account", "application/x-www-form-urlencoded", none, true, some "T"⟩

def exEmptyFormReq : Request :=
  ⟨"POST", "/account", "application/x-www-form-urlencoded", some "T", true, some ""⟩

def exUploadReq : Request := ⟨"POST", "/upload-image", "", none, true, none⟩

def exBadBodyReq : Request := ⟨"POST", "/account", "multipart/form-data", none, false, some "X"⟩

def exEmptySubmitReq : Request :=
  ⟨"POST", "/account", "application/x-www-form-urlencoded", some "", true, some ""⟩

def exJsonReq : Request := ⟨"POST", "/account", "application/json", some "T", true, some "B"⟩

/-- C1: for every POST/PUT/DELETE/PATCH request to a non-exempt path with an
active session, dispatch accepts (invokes the downstream handler once and
returns its response) exactly when the submitted token and the stored
session token are both nonempty and equal; in every other combination
(submitted token missing or empty, stored token empty, or tokens
differing) it raises a 403 HTTPException with detail
"CSRF token validation failed" and never invokes the handler. -/
theorem csrf_accept_iff_token_match {ρ : Type} (mw : CSRFMiddleware) (sess : SessionMap)
    (req : Request) (fresh : String) (next : ρ)
    (hm : req.method ∈ stateMutatingMethods)
    (hx : should_skip_csrf req.path = false) :
    (((mw.dispatch (some sess) req fresh next).result = Except.ok next ∧
        (mw.dispatch (some sess) req fresh next).nextCalls = 1) ↔
      (∃ t : String, t ≠ "" ∧ submittedTokenOf req = some t ∧
        (sessionAfterGen (some sess) fresh).bind SessionMap.csrf_token = some t)) ∧
    ((¬ ∃ t : String, t ≠ "" ∧ submittedTokenOf req = some t ∧
        (sessionAfterGen (some sess) fresh).bind SessionMap.csrf_token = some t) →
      (mw.dispatch (some sess) req fresh next).result
          = Except.error ⟨403, "CSRF token validation failed"⟩ ∧
      (mw.dispatch (some sess) req fresh next).nextCalls = 0) := by
  rw [dispatch_validating mw sess req fresh next hm hx]
  by_cases h : tokenValid (submittedTokenOf req)
      ((sessionAfterGen (some sess) fresh).bind SessionMap.csrf_token) = true
  · rw [if_pos h]
    refine ⟨?_, fun hc => absurd ((tokenValid_iff _ _).mp h) hc⟩
    simpa using (tokenValid_iff _ _).mp h
  · rw [if_neg h]
    refine ⟨⟨fun hc => ?_, fun hc => absurd ((tokenValid_iff _ _).mpr hc) h⟩,
      fun _ => ⟨rfl, rfl⟩⟩
    exact absurd hc.1 (by simp)

/-- Witness for C1 at a concrete accepted request: session token "T",
form-encoded body carrying csrf_token "T". -/
theorem csrf_accept_iff_token_match_witness :
    (mwEx.dispatch (some ⟨some "T"⟩) exFormReq "f" (0 : Nat)).result = Except.ok 0 ∧
    (mwEx.dispatch (some ⟨some "T"⟩) exFormReq "f" (0 : Nat)).nextCalls = 1 :=
  (csrf_accept_iff_token_match mwEx ⟨some "T"⟩ exFormReq "f" 0 (by decide)
      (by decide)).1.mpr ⟨"T", by decide, by decide, by decide⟩

/-- C2 counterexample: a request in which the form field csrf_token is
present (with the empty value) and the header X-CSRF-Token is present
(with value "T"): the header value, not the form value, becomes the
submitted token, and the request is accepted when the session token is
"T", so the form field does not take priority whenever both are present. -/
theorem form_priority_counterexample :
    exEmptyFormReq.formToken = some "" ∧
    exEmptyFormReq.headerToken = some "T" ∧
    submittedTokenOf exEmptyFormReq = some "T" ∧
    submittedTokenOf exEmptyFormReq ≠ exEmptyFormReq.formToken ∧
    ((CSRFMiddleware.init none "R").dispatch (some ⟨some "T"⟩) exEmptyFormReq "f"
        (0 : Nat)).result = Except.ok 0 :=
  ⟨rfl, rfl, by decide, by decide, rfl⟩

/-- C2 amended: the form field becomes the submitted token only when its
value is nonempty; when the form field is absent or has the empty value,
the header is used (Python or-chaining treats an empty form value as
falsy, so an empty form field does not shadow the header). -/
theorem submitted_token_source_amended (req : Request) :
    (∀ t : String, formTokenOf req = some t → t ≠ "" → submittedTokenOf req = some t) ∧
    ((formTokenOf req = none ∨ formTokenOf req = some "") →
      submittedTokenOf req = req.headerToken) := by
  constructor
  · intro t hf ht
    simp [submittedTokenOf, pyOr, hf, pyTruthy, ht]
  · rintro (hf | hf) <;> simp [submittedTokenOf, pyOr, hf, pyTruthy]

/-- Witness for the amended C2: a nonempty form token wins, and an empty
form token falls back to the header. -/
theorem submitted_token_source_amended_witness :
    submittedTokenOf exFormReq = some "T" ∧
    submittedTokenOf exEmptyFormReq = exEmptyFormReq.headerToken :=
  ⟨(submitted_token_source_amended exFormReq).1 "T" (by decide) (by decide),
   (submitted_token_source_amended exEmptyFormReq).2 (Or.inr (by decide))⟩

/-- C3: every state-mutating request whose path starts with an exempt
prefix, and every state-mutating request with no session capability in
scope, skips token validation: the handler is invoked and its response
returned, regardless of any submitted or stored token. -/
theorem exempt_or_sessionless_skips {ρ : Type} (mw : CSRFMiddleware)
    (session : Option SessionMap) (req : Request) (fresh : String) (next : ρ)
    (_hm : req.method ∈ stateMutatingMethods)
    (h : should_skip_csrf req.path = true ∨ session = none) :
    (mw.dispatch session req fresh next).result = Except.ok next ∧
    (mw.dispatch session req fresh next).nextCalls = 1 := by
  rcases h with hx | hn
  · rw [dispatch_skip_path mw session req fresh next hx]
    exact ⟨rfl, rfl⟩
  · subst hn
    rw [dispatch_no_session]
    exact ⟨rfl, rfl⟩

/-- Witness for C3: a POST to the exempt path /upload-image with a session
holding token "T" and no token submitted at all is still accepted. -/
theorem exempt_or_sessionless_skips_witness :
    (mwEx.dispatch (some ⟨some "T"⟩) exUploadReq "f" (0 : Nat)).result = Except.ok 0 ∧
    (mwEx.dispatch (some ⟨some "T"⟩) exUploadReq "f" (0 : Nat)).nextCalls = 1 :=
  exempt_or_sessionless_skips mwEx (some ⟨some "T"⟩) exUploadReq "f" 0 (by decide)
    (Or.inl (by decide))

/-- C4: the token is created at most once per session: the first dispatch
that finds no csrf_token key stores the freshly generated token, and every
subsequently processed request for that session (any trace of further
dispatches) leaves the stored token unchanged. -/
theorem token_issued_once_then_stable (mw : CSRFMiddleware) (sess : SessionMap)
    (h : sess.csrf_token = none) (req : Request) (fresh : String)
    (rest : List (Request × String)) :
    (mw.dispatch (some sess) req fresh ()).sessionAfter = some ⟨some fresh⟩ ∧
    runTrace mw ((mw.dispatch (some sess) req fresh ()).sessionAfter) rest
      = some ⟨some fresh⟩ := by
  have h1 : (mw.dispatch (some sess) req fresh ()).sessionAfter = some ⟨some fresh⟩ := by
    rw [dispatch_sessionAfter]
    simp [sessionAfterGen, h]
  refine ⟨h1, ?_⟩
  rw [h1]
  exact runTrace_preserves_token mw ⟨some fresh⟩ fresh rfl rest

/-- Witness for C4: a fresh session gains token "F" on the first request
and still holds "F" after two further requests. -/
theorem token_issued_once_then_stable_witness :
    (mwEx.dispatch (some ⟨none⟩) exFormReq "F" ()).sessionAfter = some ⟨some "F"⟩ ∧
    runTrace mwEx ((mwEx.dispatch (some ⟨none⟩) exFormReq "F" ()).sessionAfter)
        [(exFormReq, "G"), (exUploadReq, "H")] = some ⟨some "F"⟩ :=
  token_issued_once_then_stable mwEx ⟨none⟩ rfl exFormReq "F"
    [(exFormReq, "G"), (exUploadReq, "H")]

/-- C5: after the pre-validation steps, when a session is in scope the
request state token equals the stored session token (the session left
behind is exactly the one-field mapping holding the state token), and when
no session is in scope the state token is the empty string and no
enforcement occurs (the handler is invoked and its response returned). -/
theorem state_token_mirrors_session {ρ : Type} (mw : CSRFMiddleware)
    (session : Option SessionMap) (req : Request) (fresh : String) (next : ρ) :
    (∀ sess : SessionMap, session = some sess →
      (mw.dispatch session req fresh next).sessionAfter
        = some ⟨some (mw.dispatch session req fresh next).stateToken⟩) ∧
    (session = none →
      (mw.dispatch session req fresh next).stateToken = "" ∧
      (mw.dispatch session req fresh next).result = Except.ok next ∧
      (mw.dispatch session req fresh next).nextCalls = 1) := by
  constructor
  · rintro ⟨ct⟩ rfl
    rw [dispatch_sessionAfter, dispatch_stateToken]
    cases ct with
    | none => simp [sessionAfterGen, stateTokenOf]
    | some t => simp [sessionAfterGen, stateTokenOf]
  · rintro rfl
    rw [dispatch_no_session]
    exact ⟨rfl, rfl, rfl⟩

/-- Witness for C5: concrete instances of both branches, with a session
holding "T" and with no session. -/
theorem state_token_mirrors_session_witness :
    (mwEx.dispatch (some ⟨some "T"⟩) exFormReq "f" (0 : Nat)).sessionAfter
      = some ⟨some (mwEx.dispatch (some ⟨some "T"⟩) exFormReq "f" (0 : Nat)).stateToken⟩ ∧
    ((mwEx.dispatch none exFormReq "f" (0 : Nat)).stateToken = "" ∧
     (mwEx.dispatch none exFormReq "f" (0 : Nat)).result = Except.ok 0 ∧
     (mwEx.dispatch none exFormReq "f" (0 : Nat)).nextCalls = 1) :=
  ⟨(state_token_mirrors_session mwEx (some ⟨some "T"⟩) exFormReq "f" 0).1 ⟨some "T"⟩ rfl,
   (state_token_mirrors_session mwEx none exFormReq "f" 0).2 rfl⟩

/-- C6: for every request, dispatch either invokes the downstream handler
exactly once and returns its response unchanged, or (only on validation
failure) raises the 403 HTTPException and invokes the handler zero
times. -/
theorem next_once_or_reject {ρ : Type} (mw : CSRFMiddleware) (session : Option SessionMap)
    (req : Request) (fresh : String) (next : ρ) :
    ((mw.dispatch session req fresh next).nextCalls = 1 ∧
      (mw.dispatch session req fresh next).result = Except.ok next) ∨
    ((mw.dispatch session req fresh next).nextCalls = 0 ∧
      (mw.dispatch session req fresh next).result
        = Except.error ⟨403, "CSRF token validation failed"⟩) := by
  simp only [CSRFMiddleware.dispatch]
  repeat' split
  all_goals first | exact Or.inl ⟨rfl, rfl⟩ | exact Or.inr ⟨rfl, rfl⟩

/-- C7: on a state-mutating non-exempt request with a session, a body-parse
failure is swallowed: the submitted token falls back to the header, the
whole dispatch behaves exactly as if the form field were absent (no
distinct parse error is ever surfaced), and when no header token is
present either the request is rejected with the 403 validation error. -/
theorem parse_failure_treated_as_missing {ρ : Type} (mw : CSRFMiddleware) (sess : SessionMap)
    (req : Request) (fresh : String) (next : ρ)
    (hp : req.formParseOk = false)
    (hm : req.method ∈ stateMutatingMethods)
    (hx : should_skip_csrf req.path = false) :
    submittedTokenOf req = req.headerToken ∧
    mw.dispatch (some sess) req fresh next
      = mw.dispatch (some sess) { req with formParseOk := true, formToken := none } fresh next ∧
    (req.headerToken = none →
      (mw.dispatch (some sess) req fresh next).result
        = Except.error ⟨403, "CSRF token validation failed"⟩ ∧
      (mw.dispatch (some sess) req fresh next).nextCalls = 0) := by
  have hft : formTokenOf req = none := by
    simp [formTokenOf, hp]
  have hsub : submittedTokenOf req = req.headerToken := by
    simp [submittedTokenOf, pyOr, hft, pyTruthy]
  refine ⟨hsub, ?_, ?_⟩
  · apply dispatch_depends_only_on
    · rfl
    · rfl
    · rw [hsub]
      simp [submittedTokenOf, formTokenOf, pyOr, pyTruthy]
  · intro hh
    rw [dispatch_validating mw sess req fresh next hm hx]
    have hv : ¬ tokenValid (submittedTokenOf req)
        ((sessionAfterGen (some sess) fresh).bind SessionMap.csrf_token) = true := by
      rw [hsub, hh]
      simp [tokenValid, pyTruthy]
    rw [if_neg hv]
    exact ⟨rfl, rfl⟩

/-- Witness for C7: a multipart POST whose body fails to parse and which
carries no header token is rejected with 403, and behaves exactly like the
same request with no form field. -/
theorem parse_failure_treated_as_missing_witness :
    submittedTokenOf exBadBodyReq = exBadBodyReq.headerToken ∧
    mwEx.dispatch (some ⟨some "T"⟩) exBadBodyReq "f" (0 : Nat)
      = mwEx.dispatch (some ⟨some "T"⟩)
          { exBadBodyReq with formParseOk := true, formToken := none } "f" (0 : Nat) ∧
    ((mwEx.dispatch (some ⟨some "T"⟩) exBadBodyReq "f" (0 : Nat)).result
        = Except.error ⟨403, "CSRF token validation failed"⟩ ∧
     (mwEx.dispatch (some ⟨some "T"⟩) exBadBodyReq "f" (0 : Nat)).nextCalls = 0) :=
  ⟨(parse_failure_treated_as_missing mwEx ⟨some "T"⟩ exBadBodyReq "f" 0 rfl (by decide)
      (by decide)).1,
   (parse_failure_treated_as_missing mwEx ⟨some "T"⟩ exBadBodyReq "f" 0 rfl (by decide)
      (by decide)).2.1,
   (parse_failure_treated_as_missing mwEx ⟨some "T"⟩ exBadBodyReq "f" 0 rfl (by decide)
      (by decide)).2.2 rfl⟩

/-- C8: the secret key has no observable effect: two middleware instances
built from any supplied or generated key material produce identical
dispatch outcomes (same stored token, same state token, same decision,
same response) on the same session, request and randomness. -/
theorem secret_key_has_no_effect {ρ : Type} (k1 k2 : Option String) (r1 r2 : String)
    (session : Option SessionMap) (req : Request) (fresh : String) (next : ρ) :
    (CSRFMiddleware.init k1 r1).dispatch session req fresh next
      = (CSRFMiddleware.init k2 r2).dispatch session req fresh next := rfl

/-- C9: when the session already maps csrf_token to the empty string, the
token is never regenerated (membership, not truthiness, guards generation)
and every state-mutating non-exempt request on that session is rejected
with 403, whatever token is submitted. -/
theorem empty_stored_token_always_rejects {ρ : Type} (mw : CSRFMiddleware) (sess : SessionMap)
    (req : Request) (fresh : String) (next : ρ)
    (he : sess.csrf_token = some "")
    (hm : req.method ∈ stateMutatingMethods)
    (hx : should_skip_csrf req.path = false) :
    (mw.dispatch (some sess) req fresh next).sessionAfter = some sess ∧
    (mw.dispatch (some sess) req fresh next).result
      = Except.error ⟨403, "CSRF token validation failed"⟩ ∧
    (mw.dispatch (some sess) req fresh next).nextCalls = 0 := by
  have hsa : sessionAfterGen (some sess) fresh = some sess := by
    simp [sessionAfterGen, he]
  have hst : (sessionAfterGen (some sess) fresh).bind SessionMap.csrf_token = some "" := by
    rw [hsa]
    simpa using he
  have hv : ¬ tokenValid (submittedTokenOf req)
      ((sessionAfterGen (some sess) fresh).bind SessionMap.csrf_token) = true := by
    rw [hst]
    simp [tokenValid, pyTruthy]
  refine ⟨?_, ?_⟩
  · rw [dispatch_sessionAfter, hsa]
  · rw [dispatch_validating mw sess req fresh next hm hx, if_neg hv]
    exact ⟨rfl, rfl⟩

/-- Witness for C9: a session whose stored token is the empty string
rejects a POST that submits the empty token, leaving the session
unchanged. -/
theorem empty_stored_token_always_rejects_witness :
    (mwEx.dispatch (some ⟨some ""⟩) exEmptySubmitReq "f" (0 : Nat)).sessionAfter
      = some ⟨some ""⟩ ∧
    (mwEx.dispatch (some ⟨some ""⟩) exEmptySubmitReq "f" (0 : Nat)).result
      = Except.error ⟨403, "CSRF token validation failed"⟩ ∧
    (mwEx.dispatch (some ⟨some ""⟩) exEmptySubmitReq "f" (0 : Nat)).nextCalls = 0 :=
  empty_stored_token_always_rejects mwEx ⟨some ""⟩ exEmptySubmitReq "f" 0 rfl (by decide)
    (by decide)

/-- C10: when the content type starts with neither
application/x-www-form-urlencoded nor multipart/form-data, the body is
never consulted: the form token is absent, the submitted token is exactly
the header token, and the dispatch outcome is unchanged under arbitrary
replacement of the body fields. -/
theorem body_ignored_for_other_content_types {ρ : Type} (mw : CSRFMiddleware)
    (session : Option SessionMap) (req : Request) (fresh : String) (next : ρ)
    (ft : Option String) (fp : Bool)
    (hc1 : strStartsWith req.contentType "application/x-www-form-urlencoded" = false)
    (hc2 : strStartsWith req.contentType "multipart/form-data" = false) :
    formTokenOf req = none ∧
    submittedTokenOf req = req.headerToken ∧
    mw.dispatch session { req with formToken := ft, formParseOk := fp } fresh next
      = mw.dispatch session req fresh next := by
  have hft : formTokenOf req = none := by
    simp [formTokenOf, hc1, hc2]
  have hft2 : formTokenOf { req with formToken := ft, formParseOk := fp } = none := by
    simp [formTokenOf, hc1, hc2]
  refine ⟨hft, by simp [submittedTokenOf, pyOr, hft, pyTruthy], ?_⟩
  apply dispatch_depends_only_on
  · rfl
  · rfl
  · simp [submittedTokenOf, pyOr, hft, hft2, pyTruthy]

/-- Witness for C10: a JSON POST carrying a body csrf_token field behaves
exactly as if the body field were different, and only the header supplies
the submitted token. -/
theorem body_ignored_for_other_content_types_witness :
    formTokenOf exJsonReq = none ∧
    submittedTokenOf exJsonReq = exJsonReq.headerToken ∧
    mwEx.dispatch (some ⟨some "T"⟩)
        { exJsonReq with formToken := some "Z", formParseOk := false } "f" (0 : Nat)
      = mwEx.dispatch (some ⟨some "T"⟩) exJsonReq "f" (0 : Nat) :=
  body_ignored_for_other_content_types mwEx (some ⟨some "T"⟩) exJsonReq "f" 0
    (some "Z") false (by decide) (by decide)

end Csrf
